import Mathlib

/-!
Verification of the render-job subsystem of the rendercv web service.

The definitions below are a shallow embedding of the Python sources:
  * `src/rendercv/web/models.py`        (User, CV, RenderJob, enums)
  * `src/rendercv/web/storage.py`       (FileService path generation and save)
  * `src/rendercv/web/render_service.py` (RenderService.create_render_job,
                                          RenderService.process_render_job)
  * `src/rendercv/web/routers/render.py` (render_cv, render_cv_sync,
                                          download_render_output)

The database is modelled as explicit state (lists of rows); each
`commit` in the Python code corresponds to producing a new state value.
Python `datetime.now` calls are modelled by explicit time parameters.
The external converter (the rendering engine) and the blob-store backend
are modelled as oracle functions carried in an `Env` record; exceptions
are modelled with `Except`.  Side effects on the converter and the blob
store are additionally recorded as an explicit `Event` trace so that
"performs no converter call / no blob write" is expressible.
-/

/-- Mirrors `RenderStatus` in models.py (string values in the DB column). -/
inductive RenderStatus where
  | pending
  | processing
  | completed
  | failed
deriving DecidableEq, Repr

/-- The string stored in the `status` column, as in `RenderStatus.X.value`. -/
def RenderStatus.value : RenderStatus → String
  | .pending => "pending"
  | .processing => "processing"
  | .completed => "completed"
  | .failed => "failed"

/-- Mirrors `OutputFormat` in models.py. -/
inductive OutputFormat where
  | pdf
  | png
  | html
  | markdown
deriving DecidableEq, Repr

/-- The string value of an output format, as in `OutputFormat.X.value`. -/
def OutputFormat.value : OutputFormat → String
  | .pdf => "pdf"
  | .png => "png"
  | .html => "html"
  | .markdown => "markdown"

/-- Mirrors the `User` model (the fields the render subsystem reads). -/
structure User where
  id : String
  tier : String
  renders_this_month : Int
  renders_reset_at : Option Nat
deriving DecidableEq, Repr

/-- Mirrors `User.render_limit`: `{"free": 10, "pro": 100, "enterprise": 1000}.get(tier, 10)`. -/
def User.render_limit (u : User) : Int :=
  if u.tier = "free" then 10
  else if u.tier = "pro" then 100
  else if u.tier = "enterprise" then 1000
  else 10

/-- Mirrors `User.can_render`: `self.renders_this_month < self.render_limit`. -/
def User.can_render (u : User) : Bool :=
  u.renders_this_month < u.render_limit

/-- Mirrors the `CV` model (the fields the render subsystem reads). -/
structure CV where
  id : String
  user_id : String
  name : String
  yaml_content : String
  design_override : Option String := none
  locale_override : Option String := none
deriving DecidableEq, Repr

/-- Mirrors the `RenderJob` model. -/
structure RenderJob where
  id : String
  cv_id : String
  user_id : String
  status : String
  output_format : String
  output_path : Option String := none
  output_url : Option String := none
  file_size_bytes : Option Nat := none
  error_message : Option String := none
  started_at : Option Nat := none
  completed_at : Option Nat := none
  created_at : Nat := 0
deriving DecidableEq, Repr

/-- The relational store: the `render_jobs` and `cvs` tables. -/
structure DB where
  jobs : List RenderJob
  cvs : List CV
deriving DecidableEq, Repr

/-- Observable side effects of one `process_render_job` run. -/
inductive Event where
  | converterCall (yaml : String) (format : String)
  | blobSave (path : String)
deriving DecidableEq, Repr

/-- The external collaborators of the orchestrator: the converter
(`RenderService._render_cv`), the blob backend (`StorageBackend.save`,
`StorageBackend.get_url`), and the two `datetime.now` observations of
`process_render_job`.  `render` and `saveBlob` return `Except` to model
raised exceptions (carrying `str(e)`). -/
structure Env where
  render : String → Option String → Option String → String → Except String (List Nat)
  saveBlob : List Nat → String → String → Except String String
  getUrl : String → String
  tStart : Nat
  tEnd : Nat

/-- Committing a mutated ORM job object: the row with the same id is
replaced by the new value. -/
def DB.commitJob (db : DB) (job : RenderJob) : DB :=
  { db with jobs := db.jobs.map (fun j => if j.id == job.id then job else j) }

/-- Mirrors `FileService._generate_path`:
`f"renders/{user_id}/{cv_id}/{job_id}/{filename}"`. -/
def FileService.generate_path (user_id cv_id job_id filename : String) : String :=
  "renders/" ++ user_id ++ "/" ++ cv_id ++ "/" ++ job_id ++ "/" ++ filename

/-- Python `str.lower()` (the format strings involved are ASCII). -/
def pyLower (s : String) : String := ⟨s.data.map Char.toLower⟩

/-- The storage path computed by `FileService.save_render_output`:
`extension = output_format.lower()`, `filename = f"cv.{extension}"`. -/
def save_render_output_path (user_id cv_id job_id output_format : String) : String :=
  FileService.generate_path user_id cv_id job_id ("cv." ++ pyLower output_format)

/-- Mirrors the `content_types` dict in `FileService.save_render_output`. -/
def contentTypeFor (extension : String) : String :=
  if extension = "pdf" then "application/pdf"
  else if extension = "png" then "image/png"
  else if extension = "html" then "text/html"
  else if extension = "markdown" then "text/markdown"
  else if extension = "md" then "text/markdown"
  else "application/octet-stream"

/-- Mirrors `FileService.save_render_output`: computes the deterministic
path, saves through the backend (which may raise), and returns
`(path, url, size)` with `size = len(content)`. -/
def FileService.save_render_output (env : Env) (content : List Nat)
    (user_id cv_id job_id output_format : String) :
    Except String (String × String × Nat) :=
  match env.saveBlob content (save_render_output_path user_id cv_id job_id output_format)
      (contentTypeFor (pyLower output_format)) with
  | .error e => .error e
  | .ok _ =>
      .ok (save_render_output_path user_id cv_id job_id output_format,
           env.getUrl (save_render_output_path user_id cv_id job_id output_format),
           content.length)

/-- The body of the `try` block of `process_render_job`: converter call
followed by `save_render_output`; the first raised exception wins. -/
def renderPipeline (env : Env) (cv : CV) (job : RenderJob) :
    Except String (String × String × Nat) :=
  match env.render cv.yaml_content cv.design_override cv.locale_override job.output_format with
  | .error e => .error e
  | .ok content =>
      FileService.save_render_output env content cv.user_id cv.id job.id job.output_format

/-- The converter/blob events performed by the `try` block. -/
def pipelineEvents (env : Env) (cv : CV) (job : RenderJob) : List Event :=
  match env.render cv.yaml_content cv.design_override cv.locale_override job.output_format with
  | .error _ => [Event.converterCall cv.yaml_content job.output_format]
  | .ok _ =>
      [Event.converterCall cv.yaml_content job.output_format,
       Event.blobSave (save_render_output_path cv.user_id cv.id job.id job.output_format)]

/-- Mirrors `RenderService.process_render_job` (render_service.py lines
45-106; the worker copy in tasks.py lines 47-129 performs the same
transitions).  Returns the final committed store, the returned job row,
and the trace of converter/blob events.  A raised `ValueError` for a
missing job id is the `Except.error` case. -/
def RenderService.process_render_job (env : Env) (db : DB) (job_id : String) :
    Except String (DB × RenderJob × List Event) :=
  match db.jobs.find? (fun j => j.id == job_id) with
  | none => .error ("Render job " ++ job_id ++ " not found")
  | some job =>
    match db.cvs.find? (fun c => c.id == job.cv_id) with
    | none =>
        let job1 := { job with status := RenderStatus.failed.value,
                               error_message := some ("CV not found") }
        .ok (db.commitJob job1, job1, [])
    | some cv =>
        let job1 := { job with status := RenderStatus.processing.value,
                               started_at := some env.tStart }
        let db1 := db.commitJob job1
        let ev := pipelineEvents env cv job1
        match renderPipeline env cv job1 with
        | .ok (path, url, size) =>
            let job2 := { job1 with status := RenderStatus.completed.value,
                                    output_path := some path,
                                    output_url := some url,
                                    file_size_bytes := some size,
                                    completed_at := some env.tEnd }
            .ok (db1.commitJob job2, job2, ev)
        | .error e =>
            let job2 := { job1 with status := RenderStatus.failed.value,
                                    error_message := some e,
                                    completed_at := some env.tEnd }
            .ok (db1.commitJob job2, job2, ev)

/-- Mirrors `RenderService.create_render_job`: inserts a PENDING row and
commits.  The generated uuid and the insert timestamp are parameters. -/
def RenderService.create_render_job (db : DB) (cv : CV) (fmt : OutputFormat)
    (newId : String) (t : Nat) : DB × RenderJob :=
  let job : RenderJob :=
    { id := newId, cv_id := cv.id, user_id := cv.user_id,
      output_format := fmt.value, status := RenderStatus.pending.value,
      created_at := t }
  ({ db with jobs := db.jobs ++ [job] }, job)

/-- One committed state of the admission path: the store and the user row. -/
structure AdmSnapshot where
  db : DB
  user : User
deriving DecidableEq, Repr

/-- Mirrors the admission prefix shared by `render_cv` and
`render_cv_sync` (routers/render.py lines 43-70 and 106-133): quota
check, CV lookup, job creation (first commit), counter increment and
reset-timestamp initialisation (second commit).  The returned list is
the sequence of committed states, in commit order.  Errors carry the
HTTP status code and detail string. -/
def render_cv_admission (user : User) (db : DB) (cv_id : String)
    (fmt : OutputFormat) (newId : String) (t : Nat) :
    Except (Nat × String) (List AdmSnapshot × User × DB × RenderJob) :=
  if user.can_render then
    match db.cvs.find? (fun c => c.id == cv_id && c.user_id == user.id) with
    | none => .error (404, "CV not found")
    | some cv =>
        let p := RenderService.create_render_job db cv fmt newId t
        let db1 := p.1
        let job := p.2
        let user1 := { user with
          renders_this_month := user.renders_this_month + 1,
          renders_reset_at := match user.renders_reset_at with
            | none => some t
            | some r => some r }
        .ok ([⟨db1, user⟩, ⟨db1, user1⟩], user1, db1, job)
  else
    .error (429, "Monthly render limit (" ++ toString user.render_limit ++ ") exceeded")

/-- Mirrors the `render_cv` endpoint (async path): admission, then
either a successful enqueue (job returned still PENDING) or, on queue
failure, the synchronous fallback through `process_render_job`.
Returns the final committed user and store alongside the HTTP outcome:
quota/not-found errors happen before any commit. -/
def render_cv_endpoint (env : Env) (enqueueOk : Bool) (user : User) (db : DB)
    (cv_id : String) (fmt : OutputFormat) (newId : String) (t : Nat) :
    User × DB × Except (Nat × String) RenderJob :=
  match render_cv_admission user db cv_id fmt newId t with
  | .error e => (user, db, .error e)
  | .ok (_, user1, db1, job) =>
      if enqueueOk then (user1, db1, .ok job)
      else
        match RenderService.process_render_job env db1 job.id with
        | .error e => (user1, db1, .error (500, e))
        | .ok (db2, job2, _) => (user1, db2, .ok job2)

/-- Mirrors the `render_cv_sync` endpoint: admission, synchronous
processing, and a 500 response when the job ends FAILED (the commits
performed before the exception are kept). -/
def render_cv_sync_endpoint (env : Env) (user : User) (db : DB)
    (cv_id : String) (fmt : OutputFormat) (newId : String) (t : Nat) :
    User × DB × Except (Nat × String) RenderJob :=
  match render_cv_admission user db cv_id fmt newId t with
  | .error e => (user, db, .error e)
  | .ok (_, user1, db1, job) =>
      match RenderService.process_render_job env db1 job.id with
      | .error e => (user1, db1, .error (500, e))
      | .ok (db2, job2, _) =>
          if job2.status = RenderStatus.failed.value then
            (user1, db2, .error (500, (job2.error_message).getD ("Render failed")))
          else
            (user1, db2, .ok job2)

/-- Mirrors the `content_types` dict of `download_render_output`
(routers/render.py lines 301-307; note: no "md" key here). -/
def contentTypeForDownload (fmt : String) : String :=
  if fmt = "pdf" then "application/pdf"
  else if fmt = "png" then "image/png"
  else if fmt = "html" then "text/html"
  else if fmt = "markdown" then "text/markdown"
  else "application/octet-stream"

/-- Mirrors the `download_render_output` endpoint (routers/render.py
lines 255-320).  `storageGet` models `FileService.get_render_output`
(`none` = missing object).  The Python code tests the retrieved bytes
for truthiness (`if not content`), so both a missing object and an
empty byte string take the 404 branch. -/
def download_render_output (db : DB) (storageGet : String → Option (List Nat))
    (job_id user_id : String) : Except (Nat × String) (List Nat × String × String) :=
  match db.jobs.find? (fun j => j.id == job_id && j.user_id == user_id) with
  | none => .error (404, "Render job not found")
  | some job =>
    if job.status ≠ RenderStatus.completed.value then
      .error (400, "Render job is not completed (status: " ++ job.status ++ ")")
    else
      match job.output_path with
      | none => .error (404, "Output file not found")
      | some path =>
        match storageGet path with
        | none => .error (404, "Output file not found in storage")
        | some content =>
          if content.isEmpty then
            .error (404, "Output file not found in storage")
          else
            let filename :=
              (match db.cvs.find? (fun c => c.id == job.cv_id) with
                | some cv => cv.name
                | none => "cv") ++ "." ++ job.output_format
            .ok (content, contentTypeForDownload job.output_format, filename)

/-! ## Concrete fixtures used by witnesses and concrete evaluations -/

/-- A CV row used by concrete evaluations. -/
def cvA : CV :=
  { id := "c1", user_id := "u1", name := "CV One", yaml_content := "cv: yaml" }

/-- An environment whose converter and blob store both succeed
(converter output `[7, 7]`, local-backend style URLs). -/
def envOkRender : Env :=
  { render := fun _ _ _ _ => .ok [7, 7],
    saveBlob := fun _ _ _ => .ok "",
    getUrl := fun p => "/api/v1/files/" ++ p,
    tStart := 20, tEnd := 21 }

/-- An environment whose converter raises `"boom"`. -/
def envFailRender : Env :=
  { render := fun _ _ _ _ => .error "boom",
    saveBlob := fun _ _ _ => .ok "",
    getUrl := fun p => "/api/v1/files/" ++ p,
    tStart := 20, tEnd := 21 }

/-- A COMPLETED job for cvA with all output fields populated. -/
def jobCompleted : RenderJob :=
  { id := "j1", cv_id := "c1", user_id := "u1",
    status := RenderStatus.completed.value, output_format := "pdf",
    output_path := some ("renders/u1/c1/j1/cv.pdf"),
    output_url := some ("/api/v1/files/renders/u1/c1/j1/cv.pdf"),
    file_size_bytes := some 3, started_at := some 9, completed_at := some 10,
    created_at := 8 }

/-- A store holding the COMPLETED job and its CV. -/
def dbTerminal : DB := { jobs := [jobCompleted], cvs := [cvA] }

/-- A FREE-tier user who has not rendered this month. -/
def userFree : User :=
  { id := "u1", tier := "free", renders_this_month := 0, renders_reset_at := none }

/-- A store holding only cvA. -/
def dbCv : DB := { jobs := [], cvs := [cvA] }

/-! ## Helper lemmas -/

/-- `renderPipeline` reads only `output_format` and `id` from the job,
so the PROCESSING update does not change its result. -/
theorem renderPipeline_status_update (env : Env) (cv : CV) (job : RenderJob)
    (s : String) (st : Option Nat) :
    renderPipeline env cv { job with status := s, started_at := st } =
      renderPipeline env cv job := rfl

/-- Same for the event trace. -/
theorem pipelineEvents_status_update (env : Env) (cv : CV) (job : RenderJob)
    (s : String) (st : Option Nat) :
    pipelineEvents env cv { job with status := s, started_at := st } =
      pipelineEvents env cv job := rfl

/-- A successful `save_render_output` always returns the deterministic
path computed by `save_render_output_path`. -/
theorem save_render_output_ok_path (env : Env) (c : List Nat)
    (u d j fmt : String) (r : String × String × Nat)
    (h : FileService.save_render_output env c u d j fmt = .ok r) :
    r.1 = save_render_output_path u d j fmt := by
  unfold FileService.save_render_output at h
  split at h
  · exact absurd h (by simp)
  · simp only [Except.ok.injEq] at h
    subst h
    rfl

/-! ## C5: artifact path convention -/

/-- A PENDING markdown job for cvA. -/
def jobMd : RenderJob :=
  { id := "j3", cv_id := "c1", user_id := "u1",
    status := RenderStatus.pending.value, output_format := "markdown" }

/-- A store holding jobMd and its CV. -/
def dbMd : DB := { jobs := [jobMd], cvs := [cvA] }

/-- Claim C5 counterexample: for format `markdown` the recorded storage
path of a completed render is `renders/u1/c1/j3/cv.markdown`, not
`renders/u1/c1/j3/cv.md` as the claim states: the code uses
`output_format.lower()` as the extension and never maps markdown to md. -/
theorem markdown_render_path_uses_markdown_extension :
    (RenderService.process_render_job envOkRender dbMd "j3").map
        (fun r => (r.2.1.status, r.2.1.output_path)) =
      .ok (RenderStatus.completed.value, some ("renders/u1/c1/j3/cv.markdown"))
    ∧ some ("renders/u1/c1/j3/cv.markdown") ≠ some ("renders/u1/c1/j3/cv.md") := by
  constructor
  · rfl
  · decide

/-- Claim C5 (amended): for every (user_id, document_id, job_id, format)
with format in {pdf, png, html, markdown}, the storage path equals
`renders/{user_id}/{document_id}/{job_id}/cv.{ext}` where ext is the
format's own string value lowercased — pdf, png, html, and markdown
(not md) — since the code uses `output_format.lower()` directly. -/
theorem render_output_path_convention (u d j : String) (fmt : OutputFormat) :
    save_render_output_path u d j fmt.value =
      "renders/" ++ u ++ "/" ++ d ++ "/" ++ j ++ "/" ++ ("cv." ++ fmt.value) := by
  cases fmt <;> rfl

/-! ## C8: path determinism -/

/-- Claim C8: path generation is deterministic — any two invocations of
`save_render_output` that succeed for the same (user_id, document_id,
job_id, format) tuple return the same storage path, independent of the
backend environment, the content bytes, or any other state. -/
theorem save_render_output_path_deterministic
    (env1 env2 : Env) (c1 c2 : List Nat) (u d j fmt : String)
    (r1 r2 : String × String × Nat)
    (h1 : FileService.save_render_output env1 c1 u d j fmt = .ok r1)
    (h2 : FileService.save_render_output env2 c2 u d j fmt = .ok r2) :
    r1.1 = r2.1 := by
  rw [save_render_output_ok_path env1 c1 u d j fmt r1 h1,
      save_render_output_ok_path env2 c2 u d j fmt r2 h2]

/-- Witness for C8 at a concrete input: two saves of different contents
through different environments yield the identical path. -/
theorem save_render_output_path_deterministic_witness :
    (("renders/u1/c1/j1/cv.pdf", "/api/v1/files/renders/u1/c1/j1/cv.pdf", 1) :
        String × String × Nat).1 =
      (("renders/u1/c1/j1/cv.pdf", "/api/v1/files/renders/u1/c1/j1/cv.pdf", 2) :
        String × String × Nat).1 :=
  save_render_output_path_deterministic envOkRender envOkRender [5] [5, 6]
    "u1" "c1" "j1" "pdf"
    ("renders/u1/c1/j1/cv.pdf", "/api/v1/files/renders/u1/c1/j1/cv.pdf", 1)
    ("renders/u1/c1/j1/cv.pdf", "/api/v1/files/renders/u1/c1/j1/cv.pdf", 2)
    (by rfl) (by rfl)

/-! ## C4: quota admission -/

/-- Claim C4: admission is rejected with the 429 quota error iff
`renders_this_month >= render_limit(tier)` at call time, and every
successful admission increments `renders_this_month` by exactly 1. -/
theorem admission_quota_iff_and_increment (user : User) (db : DB)
    (cv_id : String) (fmt : OutputFormat) (newId : String) (t : Nat) :
    ((∃ m, render_cv_admission user db cv_id fmt newId t = .error (429, m)) ↔
      user.render_limit ≤ user.renders_this_month)
    ∧ (∀ snaps u1 db1 job,
        render_cv_admission user db cv_id fmt newId t = .ok (snaps, u1, db1, job) →
        u1.renders_this_month = user.renders_this_month + 1) := by
  unfold render_cv_admission
  by_cases h : user.can_render
  · have hlt : user.renders_this_month < user.render_limit := by
      simpa [User.can_render] using h
    simp only [if_pos h]
    cases hf : db.cvs.find? (fun c => c.id == cv_id && c.user_id == user.id) with
    | none =>
        simp only [hf]
        refine ⟨⟨?_, ?_⟩, ?_⟩
        · rintro ⟨m, hm⟩
          simp only [Except.error.injEq, Prod.mk.injEq] at hm
          exact absurd hm.1 (by decide)
        · intro hle
          exact absurd hle (not_le.mpr hlt)
        · intro snaps u1 db1 job hok
          exact absurd hok (by simp)
    | some cv =>
        simp only [hf]
        refine ⟨⟨?_, ?_⟩, ?_⟩
        · rintro ⟨m, hm⟩
          exact absurd hm (by simp)
        · intro hle
          exact absurd hle (not_le.mpr hlt)
        · intro snaps u1 db1 job hok
          simp only [Except.ok.injEq, Prod.mk.injEq] at hok
          obtain ⟨-, h1, -, -⟩ := hok
          subst h1
          rfl
  · have hle : user.render_limit ≤ user.renders_this_month := by
      simpa [User.can_render] using h
    simp only [if_neg h]
    refine ⟨⟨?_, ?_⟩, ?_⟩
    · intro _
      exact hle
    · intro _
      exact ⟨_, rfl⟩
    · intro snaps u1 db1 job hok
      exact absurd hok (by simp)

/-- Witness for C4, realising the spec scenario: a FREE-tier user (limit
10) at `renders_this_month = 10` is rejected with the 429 quota error,
and the same user at 9 is admitted with the counter becoming 10. -/
theorem admission_quota_witness :
    (∃ m, render_cv_admission
        { id := "u1", tier := "free", renders_this_month := 10, renders_reset_at := none }
        dbCv "c1" OutputFormat.pdf "j9" 5 = .error (429, m))
    ∧ (∀ snaps u1 db1 job,
        render_cv_admission
          { id := "u1", tier := "free", renders_this_month := 9, renders_reset_at := none }
          dbCv "c1" OutputFormat.pdf "j9" 5 = .ok (snaps, u1, db1, job) →
        u1.renders_this_month = 9 + 1) := by
  constructor
  · exact (admission_quota_iff_and_increment
      { id := "u1", tier := "free", renders_this_month := 10, renders_reset_at := none }
      dbCv "c1" OutputFormat.pdf "j9" 5).1.mpr (by decide)
  · exact (admission_quota_iff_and_increment
      { id := "u1", tier := "free", renders_this_month := 9, renders_reset_at := none }
      dbCv "c1" OutputFormat.pdf "j9" 5).2

/-! ## C1: execute on a terminal job is not a no-op -/

/-- The record produced when the COMPLETED job `jobCompleted` is handed
to `process_render_job` again under `envOkRender`. -/
def jobReprocessed : RenderJob :=
  { jobCompleted with status := RenderStatus.completed.value,
                      started_at := some 20, completed_at := some 21,
                      file_size_bytes := some 2 }

/-- Claim C1 evaluated at a failing input: `process_render_job` on the
already-COMPLETED job `"j1"` is not a no-op.  It invokes the converter,
writes the blob again, and returns a record whose `started_at`,
`completed_at` and `file_size_bytes` differ from the stored terminal
record: there is no terminal-status check anywhere in the function. -/
theorem process_render_job_terminal_not_noop :
    RenderService.process_render_job envOkRender dbTerminal "j1" =
      .ok ({ jobs := [jobReprocessed], cvs := [cvA] }, jobReprocessed,
           [Event.converterCall "cv: yaml" "pdf",
            Event.blobSave "renders/u1/c1/j1/cv.pdf"])
    ∧ jobReprocessed ≠ jobCompleted := by
  constructor
  · rfl
  · decide

/-! ## C2: a terminal state can be exited -/

/-- Claim C2 evaluated at a failing input: redelivering the COMPLETED
job `"j1"` to `process_render_job` while the converter now raises
`"boom"` moves the job from COMPLETED to FAILED — the status sequence
COMPLETED, FAILED is not a subsequence of PENDING, PROCESSING,
(COMPLETED|FAILED), so a terminal state is exited. -/
theorem process_render_job_exits_terminal_state :
    jobCompleted.status = RenderStatus.completed.value
    ∧ (RenderService.process_render_job envFailRender dbTerminal "j1").map
        (fun r => (r.2.1.status, r.2.1.error_message)) =
      .ok (RenderStatus.failed.value, some "boom") := by
  constructor
  · rfl
  · rfl

/-! ## C3: job insert and counter increment commit separately -/

/-- The PENDING row inserted by the admission fixture below. -/
def jobNew : RenderJob :=
  { id := "j9", cv_id := "c1", user_id := "u1",
    status := RenderStatus.pending.value, output_format := "pdf",
    created_at := 5 }

/-- `userFree` after the counter increment commit. -/
def userIncr : User :=
  { userFree with renders_this_month := 1, renders_reset_at := some 5 }

/-- Claim C3 evaluated at a failing input: `create_render_job` commits
the PENDING row on its own, and the counter increment is a second,
separate commit.  The first committed snapshot of the admission path
already contains the job row while `renders_this_month` is still 0 —
exactly the intermediate committed state the claim rules out. -/
theorem admission_commits_job_before_counter :
    render_cv_admission userFree dbCv "c1" OutputFormat.pdf "j9" 5 =
      .ok ([⟨{ jobs := [jobNew], cvs := [cvA] }, userFree⟩,
            ⟨{ jobs := [jobNew], cvs := [cvA] }, userIncr⟩],
           userIncr, { jobs := [jobNew], cvs := [cvA] }, jobNew)
    ∧ ({ jobs := [jobNew], cvs := [cvA] } : DB).jobs.find?
        (fun j => j.id == "j9") = some jobNew
    ∧ userFree.renders_this_month = 0
    ∧ userIncr.renders_this_month = 1 := by
  refine ⟨?_, ?_, ?_, ?_⟩ <;> rfl

/-! ## C7: the document-missing FAILED transition skips completed_at -/

/-- A PENDING job whose CV row does not exist. -/
def jobOrphan : RenderJob :=
  { id := "j2", cv_id := "c9", user_id := "u1",
    status := RenderStatus.pending.value, output_format := "pdf" }

/-- Claim C7 evaluated at a failing input: when the job's CV no longer
exists, `process_render_job` transitions the job to FAILED with message
"CV not found" but does not set `completed_at` (and performs no
converter call), so a terminal job can have `completed_at` absent. -/
theorem cv_missing_failure_skips_completed_at :
    (RenderService.process_render_job envOkRender
        { jobs := [jobOrphan], cvs := [] } "j2").map
        (fun r => (r.2.1.status, r.2.1.error_message, r.2.1.completed_at, r.2.2)) =
      .ok (RenderStatus.failed.value, some "CV not found", none, []) := by
  rfl

/-! ## C6: converter/blob failures are captured on the job -/

/-- Claim C6: for every job whose CV exists, when the converter call or
the blob-store save raises an error during `process_render_job`, the
error is captured (the call still returns `.ok`) and the job ends
FAILED with `error_message` carrying the raised error's message and
`completed_at` set, while the output fields remain absent. -/
theorem converter_or_save_failure_captured (env : Env) (db : DB) (jid : String)
    (job : RenderJob) (cv : CV) (e : String)
    (hj : db.jobs.find? (fun j => j.id == jid) = some job)
    (hc : db.cvs.find? (fun c => c.id == job.cv_id) = some cv)
    (hp : renderPipeline env cv job = .error e)
    (h1 : job.output_path = none) (h2 : job.output_url = none)
    (h3 : job.file_size_bytes = none) :
    ∃ db2 j2 ev, RenderService.process_render_job env db jid = .ok (db2, j2, ev)
      ∧ j2.status = RenderStatus.failed.value
      ∧ j2.error_message = some e
      ∧ j2.completed_at = some env.tEnd
      ∧ j2.output_path = none ∧ j2.output_url = none
      ∧ j2.file_size_bytes = none := by
  unfold RenderService.process_render_job
  simp only [hj, hc]
  rw [renderPipeline_status_update env cv job
        RenderStatus.processing.value (some env.tStart), hp]
  exact ⟨_, _, _, rfl, rfl, rfl, rfl, h1, h2, h3⟩

/-- Witness for C6: the converter raising `"invalid typst"` on the
PENDING markdown job ends it FAILED with that message, `completed_at`
set, and no output fields. -/
theorem converter_failure_captured_witness :
    ∃ db2 j2 ev,
      RenderService.process_render_job
          { render := fun _ _ _ _ => .error "invalid typst",
            saveBlob := fun _ _ _ => .ok "",
            getUrl := fun p => "/api/v1/files/" ++ p,
            tStart := 20, tEnd := 21 } dbMd "j3" = .ok (db2, j2, ev)
      ∧ j2.status = RenderStatus.failed.value
      ∧ j2.error_message = some "invalid typst"
      ∧ j2.completed_at = some 21
      ∧ j2.output_path = none ∧ j2.output_url = none
      ∧ j2.file_size_bytes = none :=
  converter_or_save_failure_captured
    { render := fun _ _ _ _ => .error "invalid typst",
      saveBlob := fun _ _ _ => .ok "",
      getUrl := fun p => "/api/v1/files/" ++ p,
      tStart := 20, tEnd := 21 }
    dbMd "j3" jobMd cvA "invalid typst" (by rfl) (by rfl) (by rfl)
    (by rfl) (by rfl) (by rfl)

/-! ## C9: a zero-length stored artifact downloads as 404 -/

/-- Claim C9: for every COMPLETED job whose stored artifact is a
zero-length byte string, `download_render_output` returns the 404 error
"Output file not found in storage" instead of the empty file, because
the retrieved content is tested for truthiness (`if not content`)
rather than for absence. -/
theorem empty_artifact_download_not_found (db : DB)
    (sg : String → Option (List Nat)) (jid uid : String)
    (job : RenderJob) (p : String)
    (hj : db.jobs.find? (fun j => j.id == jid && j.user_id == uid) = some job)
    (hs : job.status = RenderStatus.completed.value)
    (hp : job.output_path = some p)
    (hg : sg p = some []) :
    download_render_output db sg jid uid =
      .error (404, "Output file not found in storage") := by
  unfold download_render_output
  rw [hj]
  simp [hs, hp, hg]

/-- Witness for C9: a COMPLETED job whose blob store holds an empty
byte string at its output path downloads as the 404 storage error. -/
theorem empty_artifact_download_not_found_witness :
    download_render_output dbTerminal (fun _ => some []) "j1" "u1" =
      .error (404, "Output file not found in storage") :=
  empty_artifact_download_not_found dbTerminal (fun _ => some []) "j1" "u1"
    jobCompleted "renders/u1/c1/j1/cv.pdf" (by rfl) (by rfl) (by rfl) (by rfl)

/-! ## C10: an admitted render charges the quota once, win or lose -/

/-- The admission path succeeds and returns the incremented user when
the quota allows and the CV exists; the committed states and rows are
the ones built by `create_render_job` and the counter update. -/
theorem admission_ok_shape (user : User) (db : DB) (cv_id : String)
    (fmt : OutputFormat) (newId : String) (t : Nat) (cv : CV)
    (hq : user.can_render = true)
    (hcv : db.cvs.find? (fun c => c.id == cv_id && c.user_id == user.id) = some cv) :
    render_cv_admission user db cv_id fmt newId t =
      .ok ([⟨(RenderService.create_render_job db cv fmt newId t).1, user⟩,
            ⟨(RenderService.create_render_job db cv fmt newId t).1,
             { user with renders_this_month := user.renders_this_month + 1,
                         renders_reset_at := match user.renders_reset_at with
                           | none => some t
                           | some r => some r }⟩],
           { user with renders_this_month := user.renders_this_month + 1,
                       renders_reset_at := match user.renders_reset_at with
                         | none => some t
                         | some r => some r },
           (RenderService.create_render_job db cv fmt newId t).1,
           (RenderService.create_render_job db cv fmt newId t).2) := by
  unfold render_cv_admission
  rw [if_pos hq, hcv]

/-- Claim C10: once a request is admitted (quota allows, CV exists),
the user's committed `renders_this_month` is exactly one higher than
before — on the sync endpoint and on the async endpoint with or without
queue fallback, and for every converter/blob outcome, including a job
that ends FAILED.  No path ever decrements the counter. -/
theorem admitted_render_always_charges_one (env : Env) (user : User) (db : DB)
    (cv_id : String) (fmt : OutputFormat) (newId : String) (t : Nat)
    (hq : user.can_render = true)
    (hcv : ∃ cv, db.cvs.find? (fun c => c.id == cv_id && c.user_id == user.id) = some cv) :
    ((render_cv_sync_endpoint env user db cv_id fmt newId t).1.renders_this_month
        = user.renders_this_month + 1)
    ∧ (∀ b, (render_cv_endpoint env b user db cv_id fmt newId t).1.renders_this_month
        = user.renders_this_month + 1) := by
  obtain ⟨cv, hcv⟩ := hcv
  constructor
  · unfold render_cv_sync_endpoint
    rw [admission_ok_shape user db cv_id fmt newId t cv hq hcv]
    cases hpr : RenderService.process_render_job env
        (RenderService.create_render_job db cv fmt newId t).1
        (RenderService.create_render_job db cv fmt newId t).2.id with
    | error e => simp [hpr]
    | ok r =>
        obtain ⟨db2, job2, ev⟩ := r
        simp only [hpr]
        split <;> rfl
  · intro b
    unfold render_cv_endpoint
    rw [admission_ok_shape user db cv_id fmt newId t cv hq hcv]
    cases b with
    | true => rfl
    | false =>
        cases hpr : RenderService.process_render_job env
            (RenderService.create_render_job db cv fmt newId t).1
            (RenderService.create_render_job db cv fmt newId t).2.id with
        | error e => simp [hpr]
        | ok r =>
            obtain ⟨db2, job2, ev⟩ := r
            simp [hpr]

/-- Witness for C10 at a concrete input: a FREE user at 0 renders whose
converter fails (the job ends FAILED) is still charged exactly one
render on the sync endpoint and on both async variants. -/
theorem admitted_render_always_charges_one_witness :
    ((render_cv_sync_endpoint envFailRender userFree dbCv "c1"
        OutputFormat.pdf "j9" 5).1.renders_this_month
      = userFree.renders_this_month + 1)
    ∧ ((render_cv_endpoint envFailRender true userFree dbCv "c1"
        OutputFormat.pdf "j9" 5).1.renders_this_month
      = userFree.renders_this_month + 1)
    ∧ ((render_cv_endpoint envFailRender false userFree dbCv "c1"
        OutputFormat.pdf "j9" 5).1.renders_this_month
      = userFree.renders_this_month + 1) := by
  have h := admitted_render_always_charges_one envFailRender userFree dbCv "c1"
    OutputFormat.pdf "j9" 5 (by rfl) ⟨cvA, by rfl⟩
  exact ⟨h.1, h.2 true, h.2 false⟩
